import Mathlib

/-!
Verification of the Google News scraping pipeline (src/run.py) against its
natural-language specification.  The Python program is shallowly embedded:
pure fragments become Lean functions, the network is abstracted as an oracle
of attempt results / page contents, and the unbounded `while` loop of
`scrape_articles` becomes a fuel-indexed function (`none` = the loop has not
exited within the given fuel, so `∀ fuel, ... = none` expresses divergence).
-/

namespace NewsScraper

/-- One article dictionary as built in `scrape_articles` (run.py lines 122-129).
`date_published` is `Option String` because `parse_article_date` can return
Python `None`; `rewritten_content` is `none` until `rewrite_with_gemini`
adds the key (run.py line 179). -/
structure ArticleRecord where
  keyword : String
  url : String
  title : String
  date_published : Option String
  snippet : String
  scraped_at : String
  rewritten_content : Option String := none
deriving DecidableEq, Repr

/-- The raw result of one `requests.get` call inside `make_request`
(run.py lines 52-65): either an HTTP response with a status code and body,
or a raised `requests.RequestException`. -/
inductive AttemptResult where
  | response (status : Nat) (body : String)
  | exn
deriving DecidableEq, Repr

/-- The tagged outcome of classifying one attempt, the `FetchOutcome` of the
spec: `Success(body)`, `RateLimited`, `HttpError(code)`, `NetworkFailure`. -/
inductive FetchOutcome where
  | success (body : String)
  | rateLimited
  | httpError (code : Nat)
  | networkFailure
deriving DecidableEq, Repr

/-- The branch structure of `make_request` on one attempt (run.py lines
56-65): status 200 returns the response, 429 is the rate-limit branch, any
other status is the HTTP-error branch, a `RequestException` is the
network-failure branch. -/
def classify_attempt : AttemptResult → FetchOutcome
  | .response status body =>
      if status = 200 then .success body
      else if status = 429 then .rateLimited
      else .httpError status
  | .exn => .networkFailure

/-- The retry loop of `make_request` (run.py lines 51-70), embedded with the
outcomes of successive attempts supplied by the oracle `attempts` and the
durations of the `random.uniform(1, 3)` sleeps supplied by `jitter`.
Returns the result (`some body` on a 200 response, `none` after exhaustion,
mirroring `return None` at line 70) together with the trace of performed
attempts, each paired with the list of sleep durations executed after it:
`time.sleep(2 ** attempt)` on the 429 branch (line 60) and the
`time.sleep(random.uniform(1, 3))` at line 67 on every non-returning
attempt. -/
def requestLoop (attempts : Nat → AttemptResult) (jitter : Nat → Nat) :
    Nat → Nat → Option String × List (FetchOutcome × List Nat)
  | _, 0 => (none, [])
  | i, r + 1 =>
    match classify_attempt (attempts i) with
    | .success body => (some body, [(.success body, [])])
    | .rateLimited =>
        let rest := requestLoop attempts jitter (i + 1) r
        (rest.1, (.rateLimited, [2 ^ i, jitter i]) :: rest.2)
    | .httpError code =>
        let rest := requestLoop attempts jitter (i + 1) r
        (rest.1, (.httpError code, [jitter i]) :: rest.2)
    | .networkFailure =>
        let rest := requestLoop attempts jitter (i + 1) r
        (rest.1, (.networkFailure, [jitter i]) :: rest.2)

/-- `make_request(url, max_retries)` (run.py lines 40-70): run up to
`max_retries` attempts starting from attempt index 0. -/
def make_request (attempts : Nat → AttemptResult) (jitter : Nat → Nat)
    (max_retries : Nat) : Option String × List (FetchOutcome × List Nat) :=
  requestLoop attempts jitter 0 max_retries

/-- `parse_article_date` (run.py lines 72-75): Python `if not date_str:
return None` maps the empty string to `None`, anything else is returned
unchanged. -/
def parse_article_date (date_str : String) : Option String :=
  if date_str = "" then none else some date_str

/-- The `<a>` element found inside a result container (run.py line 107):
its `href` attribute (`None` when absent) and the text of the
`div role=heading` found inside it (`none` when `find` returns `None`,
run.py line 113). -/
structure LinkElem where
  href : Option String
  headingText : Option String
deriving DecidableEq, Repr

/-- One `div class=SoaBEf` result container (run.py line 96): the link
element if `container.find` locates one, the text of the snippet `div`
(run.py line 116) and of the date `span` (run.py line 119). -/
structure Container where
  link : Option LinkElem
  snippetText : Option String
  dateText : Option String
deriving DecidableEq, Repr

/-- The per-container body of `scrape_articles` (run.py lines 106-133):
skip when there is no `<a>` (line 108), skip when the `href` is missing or
empty or already seen (line 111), otherwise build the article dictionary
with empty-string defaults for title and snippet and
`parse_article_date` applied to the date text (with the empty string when
the span is absent). -/
def processContainer (keyword now : String) (seen : List String)
    (c : Container) : Option ArticleRecord :=
  match c.link with
  | none => none
  | some link =>
    match link.href with
    | none => none
    | some url =>
      if url = "" ∨ url ∈ seen then none
      else
        some { keyword := keyword
             , url := url
             , title := link.headingText.getD ""
             , date_published := parse_article_date (c.dateText.getD "")
             , snippet := c.snippetText.getD ""
             , scraped_at := now
             , rewritten_content := none }

/-- The `for container in result_containers` loop (run.py lines 102-137):
stop early once `len(articles) >= max_articles`, otherwise append each
successfully parsed record and record its url in the seen-set. -/
def processContainers (keyword now : String) (maxA : Nat) :
    List Container → List ArticleRecord → List String →
    List ArticleRecord × List String
  | [], articles, seen => (articles, seen)
  | c :: cs, articles, seen =>
    if maxA ≤ articles.length then (articles, seen)
    else
      match processContainer keyword now seen c with
      | none => processContainers keyword now maxA cs articles seen
      | some a => processContainers keyword now maxA cs (articles ++ [a]) (a.url :: seen)

/-- The mutable state of the `while` loop in `scrape_articles`
(run.py lines 78-80): accumulated articles, the seen-url set, and the page
counter. -/
structure ScrapeState where
  articles : List ArticleRecord
  seen : List String
  page : Nat
deriving DecidableEq, Repr

/-- The `while len(articles) < max_articles` loop of `scrape_articles`
(run.py lines 84-140), with the fetched-and-parsed page contents supplied
by the oracle `pages` (`pages p = none` models `make_request` returning
`None` for page `p`; `some cs` models the containers `find_all` extracts
from the page).  The loop exits with its accumulated list when the target
is reached, when a fetch fails (line 91), or when a page has no containers
(line 98); `none` means the loop has not exited within `fuel` iterations. -/
def scrapeLoop (keyword now : String) (pages : Nat → Option (List Container))
    (maxA : Nat) : Nat → ScrapeState → Option (List ArticleRecord)
  | 0, _ => none
  | fuel + 1, s =>
    if maxA ≤ s.articles.length then some s.articles
    else
      match pages s.page with
      | none => some s.articles
      | some cs =>
        if cs.isEmpty then some s.articles
        else
          let p := processContainers keyword now maxA cs s.articles s.seen
          scrapeLoop keyword now pages maxA fuel
            { articles := p.1, seen := p.2, page := s.page + 1 }

/-- `scrape_articles(keyword, max_articles)` (run.py lines 77-143): run the
page loop from the empty state. -/
def scrape_articles (keyword now : String)
    (pages : Nat → Option (List Container)) (maxA fuel : Nat) :
    Option (List ArticleRecord) :=
  scrapeLoop keyword now pages maxA fuel
    { articles := [], seen := [], page := 0 }

/-- The prompt built by `rewrite_with_gemini` (run.py lines 166-174): a
fixed Indonesian instruction template with the title and snippet of the
article interpolated. -/
def gemini_prompt (article : ArticleRecord) : String :=
  "Anda adalah seorang jurnalis. Tulis ulang konten berita berikut. Judul Asli: "
    ++ article.title ++ " Cuplikan Asli: " ++ article.snippet
    ++ " Ringkasan Berita: "

/-- `rewrite_with_gemini(article, api_key)` (run.py lines 161-183), with
the external `model.generate_content` call abstracted as the oracle
`generate` (`none` models a raised exception).  On success the call sets
`article['rewritten_content'] = response.text` and returns the same
dictionary (lines 179-180); on failure it returns `None` (line 183). -/
def rewrite_with_gemini (generate : String → Option String)
    (article : ArticleRecord) : Option ArticleRecord :=
  match generate (gemini_prompt article) with
  | some text => some { article with rewritten_content := some text }
  | none => none

/-- The rewrite loop of `main` (run.py lines 250-255): each article is
passed to the rewriter, and the result is appended only when it is truthy
(`if rewritten_article:`), so a failed rewrite leaves no trace in the
output. -/
def process_rewrites (rewriter : ArticleRecord → Option ArticleRecord) :
    List ArticleRecord → List ArticleRecord
  | [] => []
  | a :: rest =>
    match rewriter a with
    | some r => r :: process_rewrites rewriter rest
    | none => process_rewrites rewriter rest

/-- `save_to_json(articles, filename)` (run.py lines 145-155): when the
list is empty the function logs a warning and returns without touching the
file (lines 146-148); otherwise it serializes the full list in one write.
The result is the payload written, `none` meaning no write happened. -/
def save_to_json (articles : List ArticleRecord) :
    Option (List ArticleRecord) :=
  if articles.isEmpty then none else some articles

/-- `generate_static_site(articles, output_dir)` (run.py lines 185-207):
when the list is empty the function logs a warning and returns without
writing `index.html` (lines 187-189); otherwise it renders the template
over the full list and the generation timestamp.  The external Jinja2
rendering is abstracted as `render`; the result is the document written,
`none` meaning no write happened. -/
def generate_static_site (render : List ArticleRecord → String → String)
    (articles : List ArticleRecord) (now : String) : Option String :=
  if articles.isEmpty then none else some (render articles now)

/-- The tail of `main` (run.py lines 257-260): the rewritten aggregate is
handed unconditionally to both `save_to_json` and `generate_static_site`.
The pair records what each collaborator actually wrote. -/
def publish_stage (render : List ArticleRecord → String → String)
    (rewritten : List ArticleRecord) (now : String) :
    Option (List ArticleRecord) × Option String :=
  (save_to_json rewritten, generate_static_site render rewritten now)

/-! Concrete sample data used by witnesses and counterexamples. -/

/-- A link element with the given href and a fixed heading text. -/
def sampleLink (u : String) : LinkElem :=
  { href := some u, headingText := some "T" }

/-- A well-formed result container with the given url. -/
def sampleContainer (u : String) : Container :=
  { link := some (sampleLink u), snippetText := some "S", dateText := some "D" }

/-- The record `processContainer` produces from `sampleContainer u`. -/
def sampleRecord (u : String) : ArticleRecord :=
  { keyword := "tech", url := u, title := "T", date_published := some "D"
  , snippet := "S", scraped_at := "t0", rewritten_content := none }

/-- A page oracle: the first page holds three containers of which the first
two share a url, every later page is empty (end of results). -/
def samplePages : Nat → Option (List Container)
  | 0 => some [sampleContainer "u1", sampleContainer "u1", sampleContainer "u2"]
  | _ => some []

/-- A page oracle on which `scrape_articles` diverges: every page returns
the same single container, so after the first page every container is a
duplicate and the loop never again makes progress nor sees an empty page. -/
def loopPages : Nat → Option (List Container) :=
  fun _ => some [sampleContainer "u1"]

/-- Termination of the embedded `while` loop of `scrape_articles`: some
amount of fuel suffices for the loop to exit. -/
def scrapeTerminates (keyword now : String)
    (pages : Nat → Option (List Container)) (maxA : Nat) : Prop :=
  ∃ fuel out, scrape_articles keyword now pages maxA fuel = some out

/-! ## Helper lemmas -/

/-- If every attempt in the window classifies as a non-success, the retry
loop returns `none` and performs exactly as many attempts as it was given
budget for. -/
theorem requestLoop_transient (attempts : Nat → AttemptResult)
    (jitter : Nat → Nat) (r : Nat) :
    ∀ i : Nat,
      (∀ k, k < r → ∀ b, classify_attempt (attempts (i + k)) ≠ .success b) →
      (requestLoop attempts jitter i r).1 = none ∧
      (requestLoop attempts jitter i r).2.length = r := by
  induction r with
  | zero => intro i _; simp [requestLoop]
  | succ r ih =>
    intro i h
    have hsucc : ∀ b, classify_attempt (attempts i) ≠ .success b := by
      intro b
      have := h 0 (Nat.succ_pos r) b
      simpa using this
    have ihx := ih (i + 1) (fun k hk b => by
      have := h (k + 1) (by omega) b
      have hidx : i + (k + 1) = i + 1 + k := by omega
      rwa [hidx] at this)
    cases hoc : classify_attempt (attempts i) with
    | success b => exact absurd hoc (hsucc b)
    | rateLimited => simp [requestLoop, hoc, ihx.1, ihx.2]
    | httpError c => simp [requestLoop, hoc, ihx.1, ihx.2]
    | networkFailure => simp [requestLoop, hoc, ihx.1, ihx.2]

/-! ## Claim theorems -/

/-- Claim C7: for every target and every `max_retries = n ≥ 1`, if every
attempt yields a transient (non-success) outcome, `make_request` performs
exactly `n` attempts and then returns a non-success result (`None`) as
data; the embedding is a total function, so it never raises and always
terminates. -/
theorem make_request_exhausts_transient (attempts : Nat → AttemptResult)
    (jitter : Nat → Nat) (n : Nat) (_hn : 1 ≤ n)
    (htrans : ∀ i, i < n → ∀ b, classify_attempt (attempts i) ≠ .success b) :
    (make_request attempts jitter n).1 = none ∧
    (make_request attempts jitter n).2.length = n :=
  requestLoop_transient attempts jitter n 0
    (fun k hk b => by simpa using htrans k hk b)

/-- Witness for C7: a stub whose every attempt raises a transport error
makes `make_request` with budget 3 perform exactly 3 attempts and return
`none`. -/
theorem make_request_exhausts_transient_witness :
    (make_request (fun _ => AttemptResult.exn) (fun _ => 1) 3).1 = none ∧
    (make_request (fun _ => AttemptResult.exn) (fun _ => 1) 3).2.length = 3 :=
  make_request_exhausts_transient (fun _ => AttemptResult.exn) (fun _ => 1) 3
    (by decide)
    (fun i _ b => by simp [classify_attempt])

/-- Claim C8 counterexample: the claim says every HTTP status in the 200
family is returned as Success, but `make_request` tests
`response.status_code == 200` exactly (run.py line 56): status 201 — a 2xx
status — is classified as an HTTP error, not a success. -/
theorem classify_2xx_counterexample :
    (200 ≤ 201 ∧ 201 < 300) ∧
    classify_attempt (.response 201 "body") = .httpError 201 ∧
    classify_attempt (.response 201 "body") ≠ .success "body" := by
  decide

/-- Claim C8 (amended): an attempt is classified Success exactly when its
status is 200 (other 2xx statuses fall through to the HTTP-error branch),
RateLimited exactly when the status is 429, any other status is an HTTP
error, and a transport-level failure is a network failure.  A rate-limited
attempt with retries remaining sleeps `2 ^ attempt` and then the jitter
duration before the next attempt; an HTTP-error attempt sleeps the jitter
duration and the next attempt proceeds. -/
theorem classify_attempt_characterization (status : Nat) (body : String)
    (i : Nat) (jitter : Nat → Nat) :
    (classify_attempt (.response status body) = .success body ↔ status = 200) ∧
    (classify_attempt (.response status body) = .rateLimited ↔ status = 429) ∧
    (status ≠ 200 → status ≠ 429 →
      classify_attempt (.response status body) = .httpError status) ∧
    classify_attempt .exn = .networkFailure ∧
    (∀ attempts r, classify_attempt (attempts i) = .rateLimited →
      (requestLoop attempts jitter i (r + 1)).2.head? =
        some (.rateLimited, [2 ^ i, jitter i])) ∧
    (∀ attempts r code, classify_attempt (attempts i) = .httpError code →
      requestLoop attempts jitter i (r + 1) =
        ((requestLoop attempts jitter (i + 1) r).1,
         (.httpError code, [jitter i]) :: (requestLoop attempts jitter (i + 1) r).2)) := by
  refine ⟨?_, ?_, ?_, rfl, ?_, ?_⟩
  · by_cases h200 : status = 200
    · simp [classify_attempt, h200]
    · by_cases h429 : status = 429
      · simp [classify_attempt, h200, h429]
      · simp [classify_attempt, h200, h429]
  · by_cases h200 : status = 200
    · simp [classify_attempt, h200]
    · by_cases h429 : status = 429
      · simp [classify_attempt, h200, h429]
      · simp [classify_attempt, h200, h429]
  · intro h200 h429
    simp [classify_attempt, h200, h429]
  · intro attempts r hoc
    simp [requestLoop, hoc]
  · intro attempts r code hoc
    simp [requestLoop, hoc]

/-- Witness for C8 (amended): status 201 is an HTTP error, and a
rate-limited first attempt records the exponential backoff sleep `2 ^ 0`
followed by the jitter duration. -/
theorem classify_attempt_characterization_witness :
    classify_attempt (.response 201 "b") = .httpError 201 ∧
    (requestLoop (fun _ => AttemptResult.response 429 "b") (fun _ => 2) 0 1).2.head? =
      some (.rateLimited, [1, 2]) :=
  ⟨(classify_attempt_characterization 201 "b" 0 (fun _ => 2)).2.2.1
      (by decide) (by decide),
   (classify_attempt_characterization 429 "b" 0 (fun _ => 2)).2.2.2.2.1
      (fun _ => AttemptResult.response 429 "b") 0 (by decide)⟩

/-- Claim C1 counterexample: with a rewrite collaborator that always fails,
`main` appends nothing (run.py lines 252-254: `rewrite_with_gemini` returns
`None` on failure and `if rewritten_article:` filters it out), so the
record is omitted from the output entirely — there is no fallback string
anywhere in the code. -/
theorem rewrite_failure_drops_record :
    process_rewrites (fun _ => none) [sampleRecord "u1"] = [] ∧
    sampleRecord "u1" ∉ process_rewrites (fun _ => none) [sampleRecord "u1"] := by
  decide

/-- Claim C1 (amended): a record for which the rewrite collaborator fails
is dropped from the orchestrator output; in particular, with a rewrite
collaborator that fails on every record the output is empty, with no
fallback text substituted. -/
theorem process_rewrites_all_fail
    (rewriter : ArticleRecord → Option ArticleRecord)
    (articles : List ArticleRecord)
    (hfail : ∀ a ∈ articles, rewriter a = none) :
    process_rewrites rewriter articles = [] := by
  induction articles with
  | nil => rfl
  | cons a rest ih =>
    have ha := hfail a (List.mem_cons_self a rest)
    have ihx := ih (fun b hb => hfail b (List.mem_cons_of_mem a hb))
    simp [process_rewrites, ha, ihx]

/-- Witness for C1 (amended): the always-failing rewriter stub drops both
records of a two-record input. -/
theorem process_rewrites_all_fail_witness :
    process_rewrites (fun _ => none) [sampleRecord "u1", sampleRecord "u2"] = [] :=
  process_rewrites_all_fail (fun _ => none)
    [sampleRecord "u1", sampleRecord "u2"] (fun _ _ => rfl)

/-- Claim C2 counterexample: on an empty aggregate, `save_to_json` returns
without writing (run.py lines 146-148) and `generate_static_site` returns
without writing (run.py lines 187-189), so a run whose aggregate is empty
produces neither a snapshot nor a document, contrary to the claim that
every run produces a (possibly empty) written artifact. -/
theorem empty_aggregate_writes_nothing :
    publish_stage (fun _ _ => "doc") [] "t0" = (none, none) := by
  decide

/-- Claim C2 (amended): `main` hands the full aggregate unconditionally to
both the persistence and the render collaborator, but each of the two
returns without writing anything when the aggregate is empty; only a
nonempty aggregate is written, and then it is written in full. -/
theorem publish_stage_empty_vs_nonempty
    (render : List ArticleRecord → String → String)
    (articles : List ArticleRecord) (now : String) :
    (articles = [] → publish_stage render articles now = (none, none)) ∧
    (articles ≠ [] →
      publish_stage render articles now =
        (some articles, some (render articles now))) := by
  constructor
  · intro h; subst h; rfl
  · intro h
    match articles, h with
    | a :: rest, _ => rfl

/-- Witness for C2 (amended): a one-record aggregate is written in full to
both collaborators. -/
theorem publish_stage_empty_vs_nonempty_witness :
    publish_stage (fun _ _ => "doc") [sampleRecord "u1"] "t0" =
      (some [sampleRecord "u1"], some "doc") :=
  (publish_stage_empty_vs_nonempty (fun _ _ => "doc") [sampleRecord "u1"] "t0").2
    (by decide)

/-- A result container whose link carries a url but whose title, snippet
and date locators all yield nothing. -/
def bareContainer (u : String) : Container :=
  { link := some { href := some u, headingText := none }
  , snippetText := none, dateText := none }

/-- Claim C5 counterexample: a container whose URL locator is present but
whose title/snippet/date locators are missing yields exactly one record,
with title and snippet the empty string — but the published-date field is
`none` (Python `None`, JSON null), not the empty string, because
`parse_article_date` maps the empty string to `None` (run.py lines 72-75),
contradicting the claim that the field is never null. -/
theorem missing_date_yields_null :
    processContainer "tech" "t0" [] (bareContainer "u1") =
      some { keyword := "tech", url := "u1", title := ""
           , date_published := none, snippet := "", scraped_at := "t0"
           , rewritten_content := none } ∧
    (none : Option String) ≠ some "" := by
  decide

/-- Claim C5 (amended): a container whose URL locator is present but whose
title/snippet/date locators are missing yields exactly one record, not
zero records and not an exception; the title and snippet fields default
to the empty string, but the published-date field is null (`None`), since
`parse_article_date` turns the empty default into `None`. -/
theorem extract_missing_secondary_fields (keyword now url : String)
    (seen : List String) (h1 : url ≠ "") (h2 : url ∉ seen) :
    processContainer keyword now seen (bareContainer url) =
      some { keyword := keyword, url := url, title := ""
           , date_published := none, snippet := "", scraped_at := now
           , rewritten_content := none } := by
  simp [processContainer, bareContainer, parse_article_date, h1, h2]

/-- Witness for C5 (amended): concrete instance with url `u9` and an empty
seen-set. -/
theorem extract_missing_secondary_fields_witness :
    processContainer "tech" "t0" [] (bareContainer "u9") =
      some { keyword := "tech", url := "u9", title := ""
           , date_published := none, snippet := "", scraped_at := "t0"
           , rewritten_content := none } :=
  extract_missing_secondary_fields "tech" "t0" "u9" [] (by decide) (by decide)

/-- A container whose href is a relative, percent-encoded reference. -/
def relativeContainer : Container :=
  { link := some { href := some "/news%20item", headingText := some "T" }
  , snippetText := some "S", dateText := some "D" }

/-- Claim C9 counterexample: the extractor stores the href attribute
verbatim (run.py line 110: `url = link_element.get('href')` with no
resolution), so a relative, still percent-encoded reference is stored
unchanged — neither joined to an absolute base nor percent-decoded. -/
theorem url_not_canonicalized :
    (processContainer "tech" "t0" [] relativeContainer).map ArticleRecord.url =
      some "/news%20item" ∧
    "/news%20item" ≠ "/news item" := by
  decide

/-- Claim C9 (amended): the URL stored in a record is exactly the href
attribute of the link element, taken verbatim with no resolution,
joining or decoding; a container with no link element, or with a missing
or empty href, yields no record (and a seen url yields no record). -/
theorem processContainer_url_verbatim (keyword now : String)
    (seen : List String) (c : Container) :
    (∀ link url r, c.link = some link → link.href = some url →
      processContainer keyword now seen c = some r → r.url = url) ∧
    (c.link = none → processContainer keyword now seen c = none) ∧
    (∀ link, c.link = some link → link.href = none →
      processContainer keyword now seen c = none) ∧
    (∀ link, c.link = some link → link.href = some "" →
      processContainer keyword now seen c = none) := by
  refine ⟨?_, ?_, ?_, ?_⟩
  · intro link url r hc hh hr
    simp only [processContainer, hc, hh] at hr
    by_cases hguard : url = "" ∨ url ∈ seen
    · rw [if_pos hguard] at hr
      exact absurd hr (by simp)
    · rw [if_neg hguard] at hr
      simp only [Option.some.injEq] at hr
      subst hr
      rfl
  · intro h
    simp [processContainer, h]
  · intro link hc hh
    simp [processContainer, hc, hh]
  · intro link hc hh
    simp [processContainer, hc, hh]

/-- Witness for C9 (amended): the record extracted from
`sampleContainer "u1"` carries exactly the raw href `u1`. -/
theorem processContainer_url_verbatim_witness :
    (sampleRecord "u1").url = "u1" :=
  (processContainer_url_verbatim "tech" "t0" [] (sampleContainer "u1")).1
    (sampleLink "u1") "u1" (sampleRecord "u1") rfl rfl (by decide)

/-- Claim C10: when the rewrite step succeeds, the returned record is the
input record with the rewritten-content field set and every pre-existing
field — keyword, url, title, date_published, snippet, scraped_at —
unchanged.  The code performs this update in place on the dictionary it
was passed and returns that same dictionary (run.py lines 179-180); the
embedding renders the in-place update as the functional update, whose
observable content this theorem states. -/
theorem rewrite_with_gemini_frame (generate : String → Option String)
    (article out : ArticleRecord)
    (h : rewrite_with_gemini generate article = some out) :
    out.keyword = article.keyword ∧ out.url = article.url ∧
    out.title = article.title ∧
    out.date_published = article.date_published ∧
    out.snippet = article.snippet ∧
    out.scraped_at = article.scraped_at ∧
    ∃ text, generate (gemini_prompt article) = some text ∧
      out = { article with rewritten_content := some text } := by
  cases hg : generate (gemini_prompt article) with
  | none =>
    simp only [rewrite_with_gemini, hg] at h
    exact Option.noConfusion h
  | some text =>
    simp only [rewrite_with_gemini, hg, Option.some.injEq] at h
    subst h
    exact ⟨rfl, rfl, rfl, rfl, rfl, rfl, text, rfl, rfl⟩

/-- Witness for C10: a concrete successful rewrite of `sampleRecord u1`. -/
theorem rewrite_with_gemini_frame_witness :
    ({ sampleRecord "u1" with rewritten_content := some "RW" }).keyword =
      (sampleRecord "u1").keyword ∧
    ({ sampleRecord "u1" with rewritten_content := some "RW" }).url =
      (sampleRecord "u1").url ∧
    ({ sampleRecord "u1" with rewritten_content := some "RW" }).title =
      (sampleRecord "u1").title ∧
    ({ sampleRecord "u1" with rewritten_content := some "RW" }).date_published =
      (sampleRecord "u1").date_published ∧
    ({ sampleRecord "u1" with rewritten_content := some "RW" }).snippet =
      (sampleRecord "u1").snippet ∧
    ({ sampleRecord "u1" with rewritten_content := some "RW" }).scraped_at =
      (sampleRecord "u1").scraped_at ∧
    ∃ text, (fun _ => some "RW") (gemini_prompt (sampleRecord "u1")) = some text ∧
      ({ sampleRecord "u1" with rewritten_content := some "RW" } : ArticleRecord) =
        { sampleRecord "u1" with rewritten_content := some text } :=
  rewrite_with_gemini_frame (fun _ => some "RW") (sampleRecord "u1")
    { sampleRecord "u1" with rewritten_content := some "RW" } (by decide)

/-- A record produced by `processContainer` has a url that was not in the
seen-set it was checked against. -/
theorem processContainer_url_fresh (keyword now : String)
    (seen : List String) (c : Container) (a : ArticleRecord)
    (h : processContainer keyword now seen c = some a) : a.url ∉ seen := by
  match hc : c.link with
  | none => simp [processContainer, hc] at h
  | some link =>
    match hh : link.href with
    | none => simp [processContainer, hc, hh] at h
    | some url =>
      simp only [processContainer, hc, hh] at h
      by_cases hguard : url = "" ∨ url ∈ seen
      · rw [if_pos hguard] at h
        exact absurd h (by simp)
      · rw [if_neg hguard] at h
        simp only [Option.some.injEq] at h
        subst h
        exact fun hmem => hguard (Or.inr hmem)

/-- The container loop preserves the dedup invariant: if the accumulated
urls are distinct and all recorded in the seen-set, the same holds of its
output. -/
theorem processContainers_nodup (keyword now : String) (maxA : Nat) :
    ∀ (cs : List Container) (articles : List ArticleRecord)
      (seen : List String),
      (articles.map ArticleRecord.url).Nodup →
      (∀ a ∈ articles, a.url ∈ seen) →
      ((processContainers keyword now maxA cs articles seen).1.map
          ArticleRecord.url).Nodup ∧
      (∀ a ∈ (processContainers keyword now maxA cs articles seen).1,
        a.url ∈ (processContainers keyword now maxA cs articles seen).2) := by
  intro cs
  induction cs with
  | nil => intro articles seen hnd hsub; exact ⟨hnd, hsub⟩
  | cons c cs ih =>
    intro articles seen hnd hsub
    by_cases hlen : maxA ≤ articles.length
    · simp only [processContainers, if_pos hlen]
      exact ⟨hnd, hsub⟩
    · simp only [processContainers, if_neg hlen]
      cases hpc : processContainer keyword now seen c with
      | none => exact ih articles seen hnd hsub
      | some a =>
        have hfresh : a.url ∉ seen :=
          processContainer_url_fresh keyword now seen c a hpc
        have hnotin : a.url ∉ articles.map ArticleRecord.url := by
          intro hmem
          rcases List.mem_map.mp hmem with ⟨b, hb, hbu⟩
          exact hfresh (hbu ▸ hsub b hb)
        refine ih (articles ++ [a]) (a.url :: seen) ?_ ?_
        · rw [List.map_append]
          rw [List.nodup_append]
          refine ⟨hnd, List.nodup_singleton a.url, ?_⟩
          intro u hu hu1
          simp only [List.map_cons, List.map_nil, List.mem_singleton] at hu1
          exact hnotin (hu1 ▸ hu)
        · intro b hb
          rcases List.mem_append.mp hb with hb | hb
          · exact List.mem_cons_of_mem _ (hsub b hb)
          · simp only [List.mem_singleton] at hb
            subst hb
            exact List.mem_cons_self _ _

/-- The page loop preserves the dedup invariant up to exit. -/
theorem scrapeLoop_nodup (keyword now : String)
    (pages : Nat → Option (List Container)) (maxA : Nat) (fuel : Nat) :
    ∀ (s : ScrapeState) (out : List ArticleRecord),
      scrapeLoop keyword now pages maxA fuel s = some out →
      (s.articles.map ArticleRecord.url).Nodup →
      (∀ a ∈ s.articles, a.url ∈ s.seen) →
      (out.map ArticleRecord.url).Nodup := by
  induction fuel with
  | zero => intro s out h _ _; exact Option.noConfusion h
  | succ fuel ih =>
    intro s out h hnd hsub
    rw [scrapeLoop] at h
    by_cases hlen : maxA ≤ s.articles.length
    · rw [if_pos hlen] at h
      cases h
      exact hnd
    · rw [if_neg hlen] at h
      cases hp : pages s.page with
      | none =>
        rw [hp] at h
        cases h
        exact hnd
      | some cs =>
        rw [hp] at h
        dsimp only at h
        by_cases hemp : cs.isEmpty
        · rw [if_pos hemp] at h
          cases h
          exact hnd
        · rw [if_neg hemp] at h
          have hinv := processContainers_nodup keyword now maxA cs
            s.articles s.seen hnd hsub
          exact ih _ out h hinv.1 hinv.2

/-- Claim C3: for every harvest (any keyword, any target, any sequence of
fetched pages) that exits, records at distinct positions of the output
have distinct urls. -/
theorem scrape_articles_url_distinct (keyword now : String)
    (pages : Nat → Option (List Container)) (maxA fuel : Nat)
    (out : List ArticleRecord)
    (h : scrape_articles keyword now pages maxA fuel = some out)
    (i j : Nat) (hi : i < out.length) (hj : j < out.length) (hij : i ≠ j) :
    (out.get ⟨i, hi⟩).url ≠ (out.get ⟨j, hj⟩).url := by
  have hnd : (out.map ArticleRecord.url).Nodup :=
    scrapeLoop_nodup keyword now pages maxA fuel _ out h (by simp) (by simp)
  rw [List.Nodup, List.pairwise_map, List.pairwise_iff_get] at hnd
  rcases Nat.lt_or_ge i j with hlt | hge
  · exact hnd ⟨i, hi⟩ ⟨j, hj⟩ hlt
  · have hlt : j < i := Nat.lt_of_le_of_ne hge (Ne.symm hij)
    exact (hnd ⟨j, hj⟩ ⟨i, hi⟩ hlt).symm

/-- Witness for C3: in the harvest of `samplePages` (first page has a
duplicated url), the two output records carry distinct urls. -/
theorem scrape_articles_url_distinct_witness :
    ([sampleRecord "u1", sampleRecord "u2"].get ⟨0, by decide⟩).url ≠
    ([sampleRecord "u1", sampleRecord "u2"].get ⟨1, by decide⟩).url :=
  scrape_articles_url_distinct "tech" "t0" samplePages 5 3
    [sampleRecord "u1", sampleRecord "u2"] (by decide)
    0 1 (by decide) (by decide) (by decide)

/-- The container loop never grows the article list beyond the cap. -/
theorem processContainers_length (keyword now : String) (maxA : Nat) :
    ∀ (cs : List Container) (articles : List ArticleRecord)
      (seen : List String),
      articles.length ≤ maxA →
      (processContainers keyword now maxA cs articles seen).1.length ≤ maxA := by
  intro cs
  induction cs with
  | nil => intro articles seen h; exact h
  | cons c cs ih =>
    intro articles seen h
    by_cases hlen : maxA ≤ articles.length
    · simp only [processContainers, if_pos hlen]
      exact h
    · simp only [processContainers, if_neg hlen]
      cases hpc : processContainer keyword now seen c with
      | none => exact ih articles seen h
      | some a =>
        refine ih (articles ++ [a]) (a.url :: seen) ?_
        rw [List.length_append, List.length_singleton]
        omega

/-- The page loop never exits with more articles than the cap. -/
theorem scrapeLoop_length (keyword now : String)
    (pages : Nat → Option (List Container)) (maxA : Nat) (fuel : Nat) :
    ∀ (s : ScrapeState) (out : List ArticleRecord),
      scrapeLoop keyword now pages maxA fuel s = some out →
      s.articles.length ≤ maxA → out.length ≤ maxA := by
  induction fuel with
  | zero => intro s out h _; exact Option.noConfusion h
  | succ fuel ih =>
    intro s out h hle
    rw [scrapeLoop] at h
    by_cases hlen : maxA ≤ s.articles.length
    · rw [if_pos hlen] at h
      cases h
      exact hle
    · rw [if_neg hlen] at h
      cases hp : pages s.page with
      | none =>
        rw [hp] at h
        cases h
        exact hle
      | some cs =>
        rw [hp] at h
        dsimp only at h
        by_cases hemp : cs.isEmpty
        · rw [if_pos hemp] at h
          cases h
          exact hle
        · rw [if_neg hemp] at h
          exact ih _ out h
            (processContainers_length keyword now maxA cs
              s.articles s.seen hle)

/-- Claim C4: for every keyword, every target count `maxA ≥ 0` and every
sequence of fetched pages, a harvest that exits returns at most `maxA`
records. -/
theorem scrape_articles_cap (keyword now : String)
    (pages : Nat → Option (List Container)) (maxA fuel : Nat)
    (out : List ArticleRecord)
    (h : scrape_articles keyword now pages maxA fuel = some out) :
    out.length ≤ maxA :=
  scrapeLoop_length keyword now pages maxA fuel _ out h (Nat.zero_le _)

/-- Witness for C4: the harvest of `samplePages` with target 5 yields two
records, within the cap. -/
theorem scrape_articles_cap_witness :
    ([sampleRecord "u1", sampleRecord "u2"] : List ArticleRecord).length ≤ 5 :=
  scrape_articles_cap "tech" "t0" samplePages 5 3
    [sampleRecord "u1", sampleRecord "u2"] (by decide)

/-- From the stuck state — one article already harvested, its url in the
seen-set, pages forever repeating that same container — the page loop never
exits: every page is nonempty, yields zero new records, and the target of 2
is never reached. -/
theorem loopPages_stuck (fuel : Nat) :
    ∀ page : Nat,
      scrapeLoop "tech" "t0" loopPages 2 fuel
        { articles := [sampleRecord "u1"], seen := ["u1"], page := page } =
      none := by
  induction fuel with
  | zero => intro page; rfl
  | succ fuel ih =>
    intro page
    have hstep :
        scrapeLoop "tech" "t0" loopPages 2 (fuel + 1)
          { articles := [sampleRecord "u1"], seen := ["u1"], page := page } =
        scrapeLoop "tech" "t0" loopPages 2 fuel
          { articles := [sampleRecord "u1"], seen := ["u1"], page := page + 1 } := by
      rfl
    rw [hstep]
    exact ih (page + 1)

/-- Claim C6 counterexample: on a page sequence that repeats one already
seen container forever, `scrape_articles` with target 2 never terminates:
the code stops only on a page with zero containers (run.py line 98), not
on a page with zero new containers, and a page of duplicates makes no
progress toward the target. -/
theorem scrape_articles_diverges :
    ¬ scrapeTerminates "tech" "t0" loopPages 2 := by
  intro hterm
  unfold scrapeTerminates at hterm
  obtain ⟨fuel, out, h⟩ := hterm
  unfold scrape_articles at h
  cases fuel with
  | zero => exact Option.noConfusion h
  | succ fuel =>
    have hstep :
        scrapeLoop "tech" "t0" loopPages 2 (fuel + 1)
          { articles := [], seen := [], page := 0 } =
        scrapeLoop "tech" "t0" loopPages 2 fuel
          { articles := [sampleRecord "u1"], seen := ["u1"], page := 1 } := by
      rfl
    rw [hstep, loopPages_stuck fuel 1] at h
    exact Option.noConfusion h

/-- Claim C6 (amended): when the page loop exits, it exits exactly because
one of the code's three stop conditions holds at the exit state — target
count reached, fetch failed (`make_request` returned `None`), or the
fetched page parsed to zero containers; conversely any state satisfying
one of the three conditions exits immediately.  The stop condition is
zero containers on the page, not zero new (unseen) containers, and
termination is not guaranteed for every page sequence (see the
counterexample). -/
theorem scrapeLoop_exit_characterization (keyword now : String)
    (pages : Nat → Option (List Container)) (maxA : Nat) :
    (∀ fuel s out, scrapeLoop keyword now pages maxA fuel s = some out →
      ∃ t : ScrapeState, out = t.articles ∧
        (maxA ≤ t.articles.length ∨ pages t.page = none ∨
          pages t.page = some [])) ∧
    (∀ fuel s,
      (maxA ≤ s.articles.length ∨ pages s.page = none ∨
        pages s.page = some []) →
      scrapeLoop keyword now pages maxA (fuel + 1) s = some s.articles) := by
  constructor
  · intro fuel
    induction fuel with
    | zero => intro s out h; exact Option.noConfusion h
    | succ fuel ih =>
      intro s out h
      rw [scrapeLoop] at h
      by_cases hlen : maxA ≤ s.articles.length
      · rw [if_pos hlen] at h
        cases h
        exact ⟨s, rfl, Or.inl hlen⟩
      · rw [if_neg hlen] at h
        cases hp : pages s.page with
        | none =>
          rw [hp] at h
          cases h
          exact ⟨s, rfl, Or.inr (Or.inl hp)⟩
        | some cs =>
          rw [hp] at h
          dsimp only at h
          cases cs with
          | nil =>
            simp only [List.isEmpty_nil, if_pos] at h
            cases h
            exact ⟨s, rfl, Or.inr (Or.inr hp)⟩
          | cons c cs =>
            simp only [List.isEmpty_cons, Bool.false_eq_true, if_false] at h
            exact ih _ _ h
  · intro fuel s hcond
    rw [scrapeLoop]
    by_cases hlen : maxA ≤ s.articles.length
    · rw [if_pos hlen]
    · rw [if_neg hlen]
      rcases hcond with h | h | h
      · exact absurd h hlen
      · rw [h]
      · rw [h]
        rfl

/-- Witness for C6 (amended): the `samplePages` harvest exits, and its
exit state satisfies one of the three stop conditions. -/
theorem scrapeLoop_exit_characterization_witness :
    ∃ t : ScrapeState, [sampleRecord "u1", sampleRecord "u2"] = t.articles ∧
      (5 ≤ t.articles.length ∨ samplePages t.page = none ∨
        samplePages t.page = some []) :=
  (scrapeLoop_exit_characterization "tech" "t0" samplePages 5).1 3
    { articles := [], seen := [], page := 0 }
    [sampleRecord "u1", sampleRecord "u2"] (by decide)

end NewsScraper

